import Mathlib

set_option linter.unusedVariables false

/-!
Verification of the layer-composition and shape-inference core of
Antipasti (src/Antipasti/layers/arch.py).

A tensor shape descriptor in the source is a Python list whose entries are
positive integers (known dimensions) or None (unknown dimensions).  A
multi-input shape descriptor is a list of such lists.  The concrete layer
classes ReplicateLayer, ConcatenateLayer, AddLayer, IdentityLayer and
FunctionLayer are embedded below; the helper functions that live outside
arch.py (utils.compare_shapes, pykit.islistoflists, utils.get_input_shape)
are not part of the provided sources and are modelled from the
specification, as marked on each definition.
-/

/-- A single dimension entry of a shape descriptor: a known (positive)
integer, or the wildcard None of the source, written Unknown here. -/
inductive Dim where
  | Known (n : Nat)
  | Unknown
deriving DecidableEq, Repr

/-- The argument passed to a shape-inference method: either a single shape
descriptor (a flat Python list of dimensions) or a multi-input shape
descriptor (a Python list of shape descriptors). -/
inductive ShapeInput where
  | single (s : List Dim)
  | multi (ss : List (List Dim))
deriving DecidableEq, Repr

/-- The ways the embedded operations can fail.  shapeError models the
ValueError / AssertionError raised by shape validation, configurationError
the ValueError / AssertionError raised at construction, indexError a Python
IndexError from indexing past the end of a list, and typeError a Python
TypeError (such as iterating over None). -/
inductive LayerError where
  | shapeError
  | configurationError
  | indexError
  | typeError
deriving DecidableEq, Repr

/-- True for a Known dimension, false for Unknown (None). -/
def dimIsKnown : Dim → Bool
  | Dim.Known _ => true
  | Dim.Unknown => false

/-- The integer value of a Known dimension; 0 for Unknown (only used where
all dimensions are Known). -/
def dimVal : Dim → Nat
  | Dim.Known n => n
  | Dim.Unknown => 0

/-- Two dimension entries are compatible when they are equal Known values
or either side is the wildcard Unknown. -/
def dimsCompatible : Dim → Dim → Bool
  | Dim.Known m, Dim.Known n => m == n
  | _, _ => true

/-- Modelled from the spec: utils.compare_shapes is not among the provided
sources.  Per the specification, two shape descriptors are compatible if
they have the same length and, at each position, either both dimensions are
Known with equal value or either side is Unknown; in non-soft mode Unknown
positions still compare compatible regardless of the other side, so a
mismatch arises only between two differing Known values. -/
def compare_shapes (a b : List Dim) (soft : Bool) : Bool :=
  a.length == b.length && (a.zip b).all (fun p => dimsCompatible p.1 p.2)

/-- Modelled from the spec: pykit.islistoflists is not among the provided
sources.  It is the structural check that a value is a list of shape
descriptors rather than a single flat descriptor. -/
def islistoflists : ShapeInput → Bool
  | ShapeInput.single _ => false
  | ShapeInput.multi _ => true

/-- Python indexing l[axis] for the axes the ConcatenateLayer admits:
axis -1 selects the last element, a nonnegative axis selects by position;
none models the IndexError raised when the index is out of range. -/
def pyIndex (l : List Dim) (axis : Int) : Option Dim :=
  if axis = -1 then l.getLast? else l.get? axis.toNat

/-- The non-axis part of a shape descriptor, as formed by the consistency
check in ConcatenateLayer.infer_output_shape: for axis -1 the slice
ishp[:-1], for a nonnegative axis the slice ishp[:axis] + ishp[axis+1:]. -/
def axisDrop (axis : Int) (l : List Dim) : List Dim :=
  if axis = -1 then l.dropLast else l.take axis.toNat ++ l.drop (axis.toNat + 1)

/-- The slice input_shape[0][0:axis] used to build the output prefix:
dropLast for axis -1, take axis otherwise. -/
def takeAxis (axis : Int) (l : List Dim) : List Dim :=
  if axis = -1 then l.dropLast else l.take axis.toNat

/-- The suffix of the output shape: input_shape[0][axis+1:] for a
nonnegative axis, and the empty list for axis -1. -/
def dropAfterAxis (axis : Int) (l : List Dim) : List Dim :=
  if axis = -1 then [] else l.drop (axis.toNat + 1)

/-- The Python list comprehension [ishp[axis] for ishp in input_shape]:
collects the dimension at the axis of every descriptor, and fails with an
IndexError (none) as soon as one descriptor has no entry at the axis. -/
def dimsAtAxis (axis : Int) : List (List Dim) → Option (List Dim)
  | [] => some []
  | l :: ls =>
      match pyIndex l axis with
      | none => none
      | some d =>
          match dimsAtAxis axis ls with
          | none => none
          | some ds => some (d :: ds)

/-- A ConcatenateLayer is configured by its concatenation axis. -/
structure ConcatenateLayer where
  axis : Int
deriving DecidableEq, Repr

/-- ConcatenateLayer construction (arch.py lines 32-43): asserts that the
axis is one of 0, 1, 2, 3, 4, -1 and otherwise fails at construction. -/
def mkConcatenateLayer (axis : Int) : Except LayerError ConcatenateLayer :=
  if axis ∈ ([0, 1, 2, 3, 4, -1] : List Int) then
    Except.ok { axis := axis }
  else
    Except.error LayerError.configurationError

/-- The consistency check of ConcatenateLayer.infer_output_shape (arch.py
lines 52-61): the input must be a list of shape descriptors, and every
descriptor with the axis position removed must compare compatible with the
first descriptor with the axis position removed.  The comparison against
input_shape[0] is only evaluated when the list is nonempty, which headD
reflects. -/
def concatInputShapeOk (axis : Int) : ShapeInput → Bool
  | ShapeInput.single _ => false
  | ShapeInput.multi ss =>
      ss.all (fun ishp => compare_shapes (axisDrop axis ishp) (axisDrop axis (ss.headD [])) false)

/-- ConcatenateLayer.infer_output_shape (arch.py lines 49-76): validate the
input shapes, then return the first descriptor up to the axis, one entry
holding the sum of all dimensions at the axis (Unknown as soon as one of
them is Unknown), and the remainder of the first descriptor after the
axis.  Indexing input_shape[0] or ishp[axis] past the end of a list is a
Python IndexError, modelled by LayerError.indexError. -/
def ConcatenateLayer.infer_output_shape (layer : ConcatenateLayer) (input_shape : ShapeInput) :
    Except LayerError (List Dim) :=
  if concatInputShapeOk layer.axis input_shape then
    match input_shape with
    | ShapeInput.single _ => Except.error LayerError.shapeError
    | ShapeInput.multi ss =>
        match ss with
        | [] => Except.error LayerError.indexError
        | first :: rest =>
            match dimsAtAxis layer.axis (first :: rest) with
            | none => Except.error LayerError.indexError
            | some ds =>
                let mid := if ds.all dimIsKnown then Dim.Known ((ds.map dimVal).sum) else Dim.Unknown
                Except.ok (takeAxis layer.axis first ++ [mid] ++ dropAfterAxis layer.axis first)
  else
    Except.error LayerError.shapeError

/-- An AddLayer is configured by its resolved number of inputs (the
num_inputs returned by the external utils.get_input_shape resolver). -/
structure AddLayer where
  num_inputs : Nat
deriving DecidableEq, Repr

/-- AddLayer construction (arch.py lines 81-91): after resolving the input
shape it checks that the resolved number of inputs is larger than 1 and
raises a ValueError otherwise. -/
def mkAddLayer (num_inputs : Nat) : Except LayerError AddLayer :=
  if num_inputs > 1 then
    Except.ok { num_inputs := num_inputs }
  else
    Except.error LayerError.configurationError

/-- AddLayer.infer_output_shape (arch.py lines 93-109): asserts that the
input is a list of shape descriptors, that its length equals the layers
num_inputs, and that every descriptor is soft-compatible with the first;
then returns input_shape[0] unchanged. -/
def AddLayer.infer_output_shape (layer : AddLayer) (input_shape : ShapeInput) :
    Except LayerError (List Dim) :=
  match input_shape with
  | ShapeInput.single _ => Except.error LayerError.shapeError
  | ShapeInput.multi ss =>
      if ss.length ≠ layer.num_inputs then Except.error LayerError.shapeError
      else if ¬ (ss.all (fun s => compare_shapes s (ss.headD []) true)) then
        Except.error LayerError.shapeError
      else
        match ss with
        | [] => Except.error LayerError.indexError
        | first :: _ => Except.ok first

/-- A ReplicateLayer is configured by its replication count, stored exactly
as the caller passed it (a Python integer). -/
structure ReplicateLayer where
  num_replicate : Int
deriving DecidableEq, Repr

/-- ReplicateLayer construction (arch.py lines 11-18): attaches
num_replicate and resolves the input shape through the external
utils.get_input_shape collaborator, which only receives dimensions,
num_inputs=1 and the known input shape — num_replicate is not passed to it
and no validation of num_replicate appears anywhere in the constructor. -/
def mkReplicateLayer (num_replicate : Int) : Except LayerError ReplicateLayer :=
  Except.ok { num_replicate := num_replicate }

/-- ReplicateLayer.feedforward (arch.py lines 20-23): returns the Python
list [input] * num_replicate, which holds num_replicate references to the
input when num_replicate is positive and is empty otherwise. -/
def ReplicateLayer.feedforward {α : Type} (layer : ReplicateLayer) (input : α) : List α :=
  List.replicate layer.num_replicate.toNat input

/-- ReplicateLayer.infer_output_shape (arch.py lines 25-27): returns the
Python list [input_shape] * num_replicate. -/
def ReplicateLayer.infer_output_shape (layer : ReplicateLayer) (input_shape : List Dim) :
    List (List Dim) :=
  List.replicate layer.num_replicate.toNat input_shape

/-- IdentityLayer.feedforward (arch.py lines 122-124): returns the input
unchanged. -/
def IdentityLayer.feedforward {α : Type} (input : α) : α :=
  input

/-- IdentityLayer.infer_output_shape (arch.py lines 126-128): returns the
input shape descriptor unchanged. -/
def IdentityLayer.infer_output_shape (input_shape : List Dim) : List Dim :=
  input_shape

/-- A Python value passed where a function is expected: either genuinely
callable or not.  Callable values are modelled by Lean functions. -/
inductive PyFun (α β : Type) where
  | callable (f : α → β)
  | notCallable

/-- A FunctionLayer owns the user-supplied function and the shape-inference
function resolved at construction (the supplied one, or the identity
lambda when none was supplied). -/
structure FunctionLayer (α β : Type) where
  function : α → β
  shape_inference_function : List Dim → List Dim

/-- FunctionLayer construction (arch.py lines 133-155): raises a
ValueError when function is not callable or when shape_inference_function
is neither None nor callable; stores the shape-inference function,
defaulting to the identity lambda when None was supplied; and finally runs
"for parameter in parameters" over the parameters argument, which raises a
TypeError when parameters kept its default value None. -/
def mkFunctionLayer {α β : Type} (function : PyFun α β)
    (shape_inference_function : Option (PyFun (List Dim) (List Dim)))
    (parameters : Option (List Unit)) : Except LayerError (FunctionLayer α β) :=
  match function with
  | PyFun.notCallable => Except.error LayerError.configurationError
  | PyFun.callable f =>
      match shape_inference_function with
      | some PyFun.notCallable => Except.error LayerError.configurationError
      | some (PyFun.callable g) =>
          match parameters with
          | none => Except.error LayerError.typeError
          | some _ => Except.ok { function := f, shape_inference_function := g }
      | none =>
          match parameters with
          | none => Except.error LayerError.typeError
          | some _ => Except.ok { function := f, shape_inference_function := fun s => s }

/-- FunctionLayer.feedforward (arch.py lines 157-159): applies the stored
function to the input. -/
def FunctionLayer.feedforward {α β : Type} (layer : FunctionLayer α β) (input : α) : β :=
  layer.function input

/-- FunctionLayer.infer_output_shape (arch.py lines 161-163): applies the
stored shape-inference function to the input shape. -/
def FunctionLayer.infer_output_shape {α β : Type} (layer : FunctionLayer α β)
    (input_shape : List Dim) : List Dim :=
  layer.shape_inference_function input_shape

/-! Helper lemmas about dimsAtAxis, the dimension lookup
[ishp[axis] for ishp in input_shape] of ConcatenateLayer.infer_output_shape. -/

lemma dimsAtAxis_eq_map (axis : Int) (ss : List (List Dim))
    (h : ∀ l ∈ ss, (pyIndex l axis).isSome = true) :
    dimsAtAxis axis ss = some (ss.map (fun l => (pyIndex l axis).getD Dim.Unknown)) := by
  induction ss with
  | nil => rfl
  | cons a as ih =>
      have ha : (pyIndex a axis).isSome = true := h a (List.mem_cons_self a as)
      obtain ⟨d, hd⟩ := Option.isSome_iff_exists.mp ha
      have has : ∀ l ∈ as, (pyIndex l axis).isSome = true :=
        fun l hl => h l (List.mem_cons_of_mem a hl)
      simp [dimsAtAxis, hd, ih has]

lemma dimsAtAxis_eq_none (axis : Int) (ss : List (List Dim))
    (h : ∃ l ∈ ss, pyIndex l axis = none) :
    dimsAtAxis axis ss = none := by
  induction ss with
  | nil => simp at h
  | cons a as ih =>
      rcases h with ⟨l, hl, hnone⟩
      rcases List.mem_cons.mp hl with heq | hmem
      · subst heq
        simp [dimsAtAxis, hnone]
      · cases hpa : pyIndex a axis with
        | none => simp [dimsAtAxis, hpa]
        | some d => simp [dimsAtAxis, hpa, ih ⟨l, hmem, hnone⟩]

/-- Claim C6: IdentityLayer satisfies the identity laws: infer_output_shape
returns the shape descriptor unchanged and feedforward returns the input
unchanged, for every descriptor and every input. -/
theorem identity_layer_laws {α : Type} (s : List Dim) (x : α) :
    IdentityLayer.infer_output_shape s = s ∧ IdentityLayer.feedforward x = x :=
  ⟨rfl, rfl⟩

/-- Claim C5: for every ReplicateLayer with a positive replication count
(the documented contract for num_replicate), infer_output_shape returns a
sequence of length num_replicate whose every element equals the input
descriptor, and feedforward returns a sequence of num_replicate occurrences
of the same input value. -/
theorem replicate_layer_spec {α : Type} (layer : ReplicateLayer)
    (h : 0 < layer.num_replicate) (s : List Dim) (x : α) :
    ((layer.infer_output_shape s).length : Int) = layer.num_replicate ∧
    (∀ t ∈ layer.infer_output_shape s, t = s) ∧
    ((layer.feedforward x).length : Int) = layer.num_replicate ∧
    (∀ y ∈ layer.feedforward x, y = x) := by
  refine ⟨?_, ?_, ?_, ?_⟩
  · simp [ReplicateLayer.infer_output_shape, Int.toNat_of_nonneg h.le]
  · intro t ht
    exact List.eq_of_mem_replicate ht
  · simp [ReplicateLayer.feedforward, Int.toNat_of_nonneg h.le]
  · intro y hy
    exact List.eq_of_mem_replicate hy

/-- Witness for claim C5 at num_replicate = 3 with a concrete descriptor
and input. -/
theorem replicate_layer_spec_witness :
    ((ReplicateLayer.infer_output_shape ⟨3⟩ [Dim.Known 2]).length : Int) = 3 ∧
    ((ReplicateLayer.feedforward ⟨3⟩ (5 : Nat)).length : Int) = 3 :=
  ⟨(replicate_layer_spec ⟨3⟩ (by decide) [Dim.Known 2] (5 : Nat)).1,
   (replicate_layer_spec ⟨3⟩ (by decide) [Dim.Known 2] (5 : Nat)).2.2.1⟩

/-- Claim C7: AddLayer construction fails with a configuration error
exactly when the resolved num_inputs is at most 1, and succeeds whenever it
exceeds 1. -/
theorem add_layer_construction_num_inputs (n : Nat) :
    (n ≤ 1 → mkAddLayer n = Except.error LayerError.configurationError) ∧
    (1 < n → mkAddLayer n = Except.ok ⟨n⟩) := by
  constructor
  · intro h
    simp [mkAddLayer, Nat.not_lt.mpr h]
  · intro h
    simp [mkAddLayer, h]

/-- Witness for claim C7 at num_inputs = 1 and num_inputs = 2. -/
theorem add_layer_construction_num_inputs_witness :
    mkAddLayer 1 = Except.error LayerError.configurationError ∧
    mkAddLayer 2 = Except.ok ⟨2⟩ :=
  ⟨(add_layer_construction_num_inputs 1).1 (by decide),
   (add_layer_construction_num_inputs 2).2 (by decide)⟩

/-- Counterexample to claim C8: ReplicateLayer construction with
num_replicate = 0 and with num_replicate = -3 succeeds, so construction
with a non-positive num_replicate is not rejected. -/
theorem replicate_layer_zero_accepted :
    mkReplicateLayer 0 = Except.ok ⟨0⟩ ∧ mkReplicateLayer (-3) = Except.ok ⟨-3⟩ :=
  ⟨rfl, rfl⟩

/-- Claim C8 (amended): ReplicateLayer construction performs no validation
of num_replicate at all; it stores the given value and succeeds for every
integer, including zero and negative values. -/
theorem replicate_layer_construction_unvalidated (n : Int) :
    mkReplicateLayer n = Except.ok ⟨n⟩ :=
  rfl

/-- Claim C10: FunctionLayer construction that leaves parameters at its
default value None always fails (the constructor iterates over parameters
unconditionally, a TypeError on None), even when the function is callable
and the shape-inference function is absent or callable. -/
theorem function_layer_missing_parameters_fails {α β : Type} (f : α → β)
    (g : List Dim → List Dim) :
    mkFunctionLayer (PyFun.callable f) none none = Except.error LayerError.typeError ∧
    mkFunctionLayer (PyFun.callable f) (some (PyFun.callable g)) none =
      Except.error LayerError.typeError :=
  ⟨rfl, rfl⟩

/-- Claim C4: a FunctionLayer constructed without a shape-inference
function resolves it to the identity, so infer_output_shape returns every
input shape unchanged and construction is not an error; with a supplied
callable shape-inference function, infer_output_shape is exactly that
function applied to the input shape. -/
theorem function_layer_default_shape_inference {α β : Type} (f : α → β)
    (g : List Dim → List Dim) (ps : List Unit) (s : List Dim) :
    mkFunctionLayer (PyFun.callable f) none (some ps) =
      Except.ok { function := f, shape_inference_function := fun t => t } ∧
    FunctionLayer.infer_output_shape
      { function := f, shape_inference_function := fun t => t } s = s ∧
    mkFunctionLayer (PyFun.callable f) (some (PyFun.callable g)) (some ps) =
      Except.ok { function := f, shape_inference_function := g } ∧
    FunctionLayer.infer_output_shape
      { function := f, shape_inference_function := g } s = g s :=
  ⟨rfl, rfl, rfl, rfl⟩

/-- Claim C9: invalid construction arguments fail at construction with a
configuration error: a ConcatenateLayer axis outside 0, 1, 2, 3, 4, -1, a
FunctionLayer function that is not callable, and a FunctionLayer
shape-inference function that is present but not callable. -/
theorem construction_configuration_errors {α β : Type}
    (axis : Int) (h : axis ∉ ([0, 1, 2, 3, 4, -1] : List Int))
    (f : α → β) (sif : Option (PyFun (List Dim) (List Dim)))
    (p : Option (List Unit)) :
    mkConcatenateLayer axis = Except.error LayerError.configurationError ∧
    mkFunctionLayer (PyFun.notCallable : PyFun α β) sif p =
      Except.error LayerError.configurationError ∧
    mkFunctionLayer (PyFun.callable f) (some PyFun.notCallable) p =
      Except.error LayerError.configurationError := by
  refine ⟨?_, ?_, ?_⟩
  · simp [mkConcatenateLayer, h]
  · rfl
  · rfl

/-- Claim C1: for every ConcatenateLayer with an admissible axis and every
nonempty list of input shape descriptors that agree outside the axis and
all have a dimension at the axis, infer_output_shape returns the first
descriptor up to the axis, then one entry that is Known with the sum of
the dimension values at the axis when all of them are Known and Unknown
otherwise, then the first descriptor after the axis (the empty suffix for
axis -1). -/
theorem concat_infer_output_shape_spec (layer : ConcatenateLayer)
    (ha : layer.axis ∈ ([0, 1, 2, 3, 4, -1] : List Int))
    (first : List Dim) (rest : List (List Dim))
    (hcompat : (first :: rest).all (fun ishp =>
        compare_shapes (axisDrop layer.axis ishp) (axisDrop layer.axis first) false) = true)
    (haxis : ∀ ishp ∈ first :: rest, (pyIndex ishp layer.axis).isSome = true) :
    layer.infer_output_shape (ShapeInput.multi (first :: rest)) =
      Except.ok (takeAxis layer.axis first ++
        [if ((first :: rest).map
              (fun ishp => (pyIndex ishp layer.axis).getD Dim.Unknown)).all dimIsKnown
         then Dim.Known (((first :: rest).map
              (fun ishp => dimVal ((pyIndex ishp layer.axis).getD Dim.Unknown))).sum)
         else Dim.Unknown] ++
        dropAfterAxis layer.axis first) := by
  have hok : concatInputShapeOk layer.axis (ShapeInput.multi (first :: rest)) = true := by
    simpa [concatInputShapeOk] using hcompat
  have hds := dimsAtAxis_eq_map layer.axis (first :: rest) haxis
  simp only [ConcatenateLayer.infer_output_shape, hok, if_true, hds, List.map_map,
    Function.comp_def]

/-- Witness for claim C1 at the spec example: axis 1, inputs of shapes
[2, 3, 4] and [2, 5, 4], output [2, 8, 4]. -/
theorem concat_infer_output_shape_spec_witness :
    ConcatenateLayer.infer_output_shape ⟨1⟩
      (ShapeInput.multi [[Dim.Known 2, Dim.Known 3, Dim.Known 4],
        [Dim.Known 2, Dim.Known 5, Dim.Known 4]]) =
      Except.ok [Dim.Known 2, Dim.Known 8, Dim.Known 4] := by
  have h := concat_infer_output_shape_spec ⟨1⟩ (by decide)
      [Dim.Known 2, Dim.Known 3, Dim.Known 4] [[Dim.Known 2, Dim.Known 5, Dim.Known 4]]
      (by decide) (by decide)
  exact h

/-- Counterexample to claim C2 as stated: for axis 1 and the input
[[Known 2], [Known 2]], the argument is a list of shape descriptors and no
two Known dimensions outside the axis differ, yet infer_output_shape does
not succeed — indexing ishp[1] on the length-1 descriptors raises an
IndexError rather than producing an output or a shape error. -/
theorem concat_infer_short_shape_counterexample :
    islistoflists (ShapeInput.multi [[Dim.Known 2], [Dim.Known 2]]) = true ∧
    ([[Dim.Known 2], [Dim.Known 2]] : List (List Dim)).all (fun ishp =>
        compare_shapes (axisDrop 1 ishp) (axisDrop 1 [Dim.Known 2]) false) = true ∧
    ConcatenateLayer.infer_output_shape ⟨1⟩
      (ShapeInput.multi [[Dim.Known 2], [Dim.Known 2]]) =
      Except.error LayerError.indexError :=
  ⟨rfl, rfl, rfl⟩

/-- Claim C2 (amended): for every ConcatenateLayer with an admissible
axis, infer_output_shape fails with a shape error when the argument is not
a list of shape descriptors or when some descriptor is incompatible with
the first outside the axis; when the argument is a compatible list it
succeeds provided the list is nonempty and every descriptor has a
dimension at the axis, and fails with an index error when the list is
empty or some descriptor has no dimension at the axis. -/
theorem concat_infer_error_characterization (layer : ConcatenateLayer)
    (ha : layer.axis ∈ ([0, 1, 2, 3, 4, -1] : List Int)) :
    (∀ input, islistoflists input = false →
        layer.infer_output_shape input = Except.error LayerError.shapeError) ∧
    (∀ ss, ss.all (fun ishp => compare_shapes (axisDrop layer.axis ishp)
          (axisDrop layer.axis (ss.headD [])) false) = false →
        layer.infer_output_shape (ShapeInput.multi ss) =
          Except.error LayerError.shapeError) ∧
    (∀ first rest, (first :: rest).all (fun ishp =>
          compare_shapes (axisDrop layer.axis ishp) (axisDrop layer.axis first) false) = true →
        (∀ ishp ∈ first :: rest, (pyIndex ishp layer.axis).isSome = true) →
        ∃ out, layer.infer_output_shape (ShapeInput.multi (first :: rest)) = Except.ok out) ∧
    (layer.infer_output_shape (ShapeInput.multi []) = Except.error LayerError.indexError) ∧
    (∀ first rest, (first :: rest).all (fun ishp =>
          compare_shapes (axisDrop layer.axis ishp) (axisDrop layer.axis first) false) = true →
        (∃ ishp ∈ first :: rest, pyIndex ishp layer.axis = none) →
        layer.infer_output_shape (ShapeInput.multi (first :: rest)) =
          Except.error LayerError.indexError) := by
  refine ⟨?_, ?_, ?_, ?_, ?_⟩
  · intro input hflat
    cases input with
    | single s => rfl
    | multi ss => simp [islistoflists] at hflat
  · intro ss hfalse
    have hok : concatInputShapeOk layer.axis (ShapeInput.multi ss) = false := by
      simpa [concatInputShapeOk] using hfalse
    simp [ConcatenateLayer.infer_output_shape, hok]
  · intro first rest hcompat haxis
    have hok : concatInputShapeOk layer.axis (ShapeInput.multi (first :: rest)) = true := by
      simpa [concatInputShapeOk] using hcompat
    have hds := dimsAtAxis_eq_map layer.axis (first :: rest) haxis
    refine ⟨takeAxis layer.axis first ++
        [if ((first :: rest).map
              (fun l => (pyIndex l layer.axis).getD Dim.Unknown)).all dimIsKnown
         then Dim.Known ((((first :: rest).map
              (fun l => (pyIndex l layer.axis).getD Dim.Unknown)).map dimVal).sum)
         else Dim.Unknown] ++ dropAfterAxis layer.axis first, ?_⟩
    simp only [ConcatenateLayer.infer_output_shape, hok, if_true, hds]
  · rfl
  · intro first rest hcompat hnone
    have hok : concatInputShapeOk layer.axis (ShapeInput.multi (first :: rest)) = true := by
      simpa [concatInputShapeOk] using hcompat
    have hds := dimsAtAxis_eq_none layer.axis (first :: rest) hnone
    simp only [ConcatenateLayer.infer_output_shape, hok, if_true, hds]

/-- Witness for claim C2 (amended) at axis 1: a flat single descriptor
fails with a shape error, and the spec mismatch example with descriptors
[2, 3] and [3, 3] fails with a shape error. -/
theorem concat_infer_error_characterization_witness :
    ConcatenateLayer.infer_output_shape ⟨1⟩ (ShapeInput.single [Dim.Known 2]) =
      Except.error LayerError.shapeError ∧
    ConcatenateLayer.infer_output_shape ⟨1⟩
      (ShapeInput.multi [[Dim.Known 2, Dim.Known 3], [Dim.Known 3, Dim.Known 3]]) =
      Except.error LayerError.shapeError :=
  ⟨(concat_infer_error_characterization ⟨1⟩ (by decide)).1
      (ShapeInput.single [Dim.Known 2]) rfl,
   (concat_infer_error_characterization ⟨1⟩ (by decide)).2.1
      [[Dim.Known 2, Dim.Known 3], [Dim.Known 3, Dim.Known 3]] (by decide)⟩

/-- Claim C3: for every AddLayer (whose construction guarantees
num_inputs larger than 1), infer_output_shape fails with a shape error on a
single flat descriptor, fails with a shape error when the list length
differs from num_inputs or some descriptor is not soft-compatible with the
first, and returns the first descriptor unchanged when the list has length
num_inputs and every descriptor is soft-compatible with the first. -/
theorem add_infer_output_shape_spec (layer : AddLayer) (h : 1 < layer.num_inputs) :
    (∀ s, layer.infer_output_shape (ShapeInput.single s) =
        Except.error LayerError.shapeError) ∧
    (∀ ss, ss.length = layer.num_inputs →
        ss.all (fun s => compare_shapes s (ss.headD []) true) = true →
        layer.infer_output_shape (ShapeInput.multi ss) = Except.ok (ss.headD [])) ∧
    (∀ ss, ¬ (ss.length = layer.num_inputs ∧
          ss.all (fun s => compare_shapes s (ss.headD []) true) = true) →
        layer.infer_output_shape (ShapeInput.multi ss) =
          Except.error LayerError.shapeError) := by
  refine ⟨fun s => rfl, ?_, ?_⟩
  · intro ss hlen hall
    cases ss with
    | nil =>
        rw [← hlen] at h
        exact absurd h (by decide)
    | cons a as =>
        show (if (a :: as).length ≠ layer.num_inputs then
            Except.error LayerError.shapeError
          else if ¬ ((a :: as).all
              (fun s => compare_shapes s ((a :: as).headD []) true) = true) then
            Except.error LayerError.shapeError
          else match a :: as with
            | [] => Except.error LayerError.indexError
            | first :: _ => Except.ok first) = Except.ok ((a :: as).headD [])
        rw [if_neg (not_ne_iff.mpr hlen), if_neg (not_not_intro hall)]
        rfl
  · intro ss hnot
    rcases Decidable.em (ss.length = layer.num_inputs) with hlen | hlen
    · have hall : ¬ (ss.all (fun s => compare_shapes s (ss.headD []) true) = true) :=
        fun hb => hnot ⟨hlen, hb⟩
      show (if ss.length ≠ layer.num_inputs then
          Except.error LayerError.shapeError
        else if ¬ (ss.all (fun s => compare_shapes s (ss.headD []) true) = true) then
          Except.error LayerError.shapeError
        else match ss with
          | [] => Except.error LayerError.indexError
          | first :: _ => Except.ok first) = Except.error LayerError.shapeError
      rw [if_neg (not_ne_iff.mpr hlen), if_pos hall]
    · show (if ss.length ≠ layer.num_inputs then
          Except.error LayerError.shapeError
        else if ¬ (ss.all (fun s => compare_shapes s (ss.headD []) true) = true) then
          Except.error LayerError.shapeError
        else match ss with
          | [] => Except.error LayerError.indexError
          | first :: _ => Except.ok first) = Except.error LayerError.shapeError
      rw [if_pos hlen]

/-- Witness for claim C3 at the spec example: three inputs with a soft
match succeed and return the first descriptor; a mismatched second input
fails; a two-element list for a three-input layer fails. -/
theorem add_infer_output_shape_spec_witness :
    AddLayer.infer_output_shape ⟨3⟩
      (ShapeInput.multi [[Dim.Known 4, Dim.Known 4], [Dim.Unknown, Dim.Known 4],
        [Dim.Known 4, Dim.Known 4]]) = Except.ok [Dim.Known 4, Dim.Known 4] ∧
    AddLayer.infer_output_shape ⟨3⟩
      (ShapeInput.multi [[Dim.Known 4, Dim.Known 4], [Dim.Known 5, Dim.Known 4],
        [Dim.Known 4, Dim.Known 4]]) = Except.error LayerError.shapeError ∧
    AddLayer.infer_output_shape ⟨3⟩
      (ShapeInput.multi [[Dim.Known 4, Dim.Known 4], [Dim.Known 4, Dim.Known 4]]) =
      Except.error LayerError.shapeError :=
  ⟨(add_infer_output_shape_spec ⟨3⟩ (by decide)).2.1
      [[Dim.Known 4, Dim.Known 4], [Dim.Unknown, Dim.Known 4], [Dim.Known 4, Dim.Known 4]]
      (by decide) (by decide),
   (add_infer_output_shape_spec ⟨3⟩ (by decide)).2.2
      [[Dim.Known 4, Dim.Known 4], [Dim.Known 5, Dim.Known 4], [Dim.Known 4, Dim.Known 4]]
      (by decide),
   (add_infer_output_shape_spec ⟨3⟩ (by decide)).2.2
      [[Dim.Known 4, Dim.Known 4], [Dim.Known 4, Dim.Known 4]]
      (by decide)⟩

/-- Witness for claim C9 at axis = 7 and concrete function values. -/
theorem construction_configuration_errors_witness :
    mkConcatenateLayer 7 = Except.error LayerError.configurationError ∧
    mkFunctionLayer (PyFun.notCallable : PyFun Nat Nat) none none =
      Except.error LayerError.configurationError ∧
    mkFunctionLayer (PyFun.callable (fun n : Nat => n)) (some PyFun.notCallable) none =
      Except.error LayerError.configurationError :=
  construction_configuration_errors 7 (by decide) (fun n => n) none none
